import Mathlib

/-!
Verification of the HHMIBrothers storefront core pipeline: a shallow
embedding of the catalog / query-engine / selection / order-composition /
delivery-dispatch code of `script.js` (the current main script),
`HHMIBrothers/products.js` (product data plus a legacy copy of the script
with a divergent order flow) and `ai-assistant.js` (conversation-log
persistence).  DOM access is modelled by passing the read values (input
strings, form field strings) as explicit arguments; the mutable globals
`currentProduct` / quantity input / modal visibility are modelled as an
explicit state record.
-/

/-- Whitespace class of JavaScript (the `\s` regex class, also used by
`String.prototype.trim`): tab, line feed, vertical tab, form feed,
carriage return, space, NBSP and the Unicode space separators. -/
def isJsWhitespace (c : Char) : Bool :=
  let n := c.toNat
  n == 9 || n == 10 || n == 11 || n == 12 || n == 13 || n == 32 ||
  n == 0xa0 || n == 0x1680 || (0x2000 <= n && n <= 0x200a) ||
  n == 0x2028 || n == 0x2029 || n == 0x202f || n == 0x205f || n == 0x3000 || n == 0xfeff

/-- Models `String.prototype.toLowerCase()` for the ASCII data used by this
repository (JavaScript lowercases the full Unicode range; every string the
program compares is ASCII). -/
def jsToLower (s : String) : String :=
  ⟨s.data.map Char.toLower⟩

/-- Models `String.prototype.trim()`: strips JavaScript whitespace from both
ends. -/
def jsTrim (s : String) : String :=
  ⟨((s.data.dropWhile isJsWhitespace).reverse.dropWhile isJsWhitespace).reverse⟩

/-- Models `haystack.includes(needle)` on strings: `needle` occurs as a
contiguous substring of `haystack`. -/
def substrB (haystack needle : String) : Bool :=
  decide (needle.data <:+: haystack.data)

/-- Product record of `products.js`: id, name, price, image, description,
category. -/
structure Product where
  id : Nat
  name : String
  price : Nat
  image : String
  description : String
  category : String
deriving DecidableEq

/-- The static catalog from `HHMIBrothers/products.js`. -/
def products : List Product :=
  [⟨1, "Men\x27s Winter Parka Jacket", 5499, "assets/images/products/jacket1.jpeg",
    "Warm and stylish winter parka with hood and multiple pockets", "winter"⟩,
   ⟨2, "Women\x27s Faux Leather Jacket", 4299, "assets/images/products/jacket2.jpeg",
    "Elegant faux leather jacket perfect for casual and formal occasions", "leather"⟩,
   ⟨3, "Men\x27s Denim Jacket", 3299, "assets/images/products/jacket3.jpeg",
    "Classic denim jacket with a modern fit and comfortable feel", "denim"⟩,
   ⟨4, "Women\x27s Puffer Jacket", 4799, "assets/images/products/jacket4.jpeg",
    "Lightweight yet warm puffer jacket with water-resistant finish", "winter"⟩,
   ⟨5, "Men\x27s Bomber Jacket", 3999, "assets/images/products/jacket5.jpeg",
    "Classic bomber jacket with ribbed cuffs and comfortable fit", "casual"⟩,
   ⟨6, "Women\x27s Trench Coat", 5999, "assets/images/products/jacket3.jpeg",
    "Elegant trench coat perfect for formal occasions and rainy days", "formal"⟩,
   ⟨7, "Men\x27s Hooded Jacket", 3799, "assets/images/products/jacket1.jpeg",
    "Comfortable hooded jacket for everyday wear", "casual"⟩,
   ⟨8, "Women\x27s Windbreaker", 3499, "assets/images/products/jacket.jpeg",
    "Lightweight windbreaker perfect for windy days", "casual"⟩]

/-- Filter predicate of `performSearch` (`script.js`): the already
lowercased-and-trimmed search term occurs in the lowercased name,
description or category. -/
def matchesSearch (searchTerm : String) (p : Product) : Bool :=
  substrB (jsToLower p.name) searchTerm ||
  substrB (jsToLower p.description) searchTerm ||
  substrB (jsToLower p.category) searchTerm

/-- The filtering step of `performSearch` (`script.js`):
`searchInput.value.toLowerCase().trim()`, then either the whole catalog (for
the empty term) or `products.filter(...)`. -/
def performSearch (catalog : List Product) (inputValue : String) : List Product :=
  let searchTerm := jsTrim (jsToLower inputValue)
  if searchTerm = "" then catalog
  else catalog.filter (matchesSearch searchTerm)

/-- Spec reading of the search match: the raw (untrimmed) search term must
occur case-insensitively in name, description or category.  Stated from the
claim text, to be compared with `performSearch` / `matchesSearch`, which
trim the term first. -/
def specSearchMatch (rawTerm : String) (p : Product) : Bool :=
  substrB (jsToLower p.name) (jsToLower rawTerm) ||
  substrB (jsToLower p.description) (jsToLower rawTerm) ||
  substrB (jsToLower p.category) (jsToLower rawTerm)

/-- A string consisting only of JavaScript whitespace (possibly empty). -/
def isWhitespaceOnly (s : String) : Bool :=
  s.data.all isJsWhitespace

/-- Comparison used to model `a.name.localeCompare(b.name) <= 0`
(`localeCompare` is locale-sensitive in JavaScript; modelled as code point
order, which agrees on the ASCII catalog data). -/
def localeLe (a b : String) : Bool :=
  !decide (b < a)

/-- The `performSort` switch of `script.js`: stable sort of the filtered
list by the comparator selected by the sort key; any other key keeps the
filtered order. -/
def performSort (sortValue : String) (filteredProducts : List Product) : List Product :=
  if sortValue = "price-low" then
    filteredProducts.mergeSort (fun a b => decide (a.price ≤ b.price))
  else if sortValue = "price-high" then
    filteredProducts.mergeSort (fun a b => decide (b.price ≤ a.price))
  else if sortValue = "name" then
    filteredProducts.mergeSort (fun a b => localeLe a.name b.name)
  else filteredProducts

/-- Digit run of `parseInt`: the leading run of digits of the given base,
`none` when the run is empty (JavaScript `NaN`). -/
def parseNatRun (isDigitB : Char → Bool) (val : Char → Nat) (base : Nat)
    (cs : List Char) : Option Nat :=
  let run := cs.takeWhile isDigitB
  if run.isEmpty then none
  else some (run.foldl (fun a c => base * a + val c) 0)

/-- ASCII hexadecimal digit test. -/
def isHexDigit (c : Char) : Bool :=
  c.isDigit || ('a' ≤ c && c ≤ 'f') || ('A' ≤ c && c ≤ 'F')

/-- Value of an ASCII hexadecimal digit. -/
def hexVal (c : Char) : Nat :=
  if c.isDigit then c.toNat - 48
  else if 'a' ≤ c && c ≤ 'f' then c.toNat - 87
  else c.toNat - 55

/-- Unsigned part of JavaScript `parseInt(s)` with no radix argument: an
optional `0x`/`0X` prefix selects base 16, otherwise base 10; the leading
digit run is taken and trailing garbage ignored. -/
def parseUnsigned (cs : List Char) : Option Nat :=
  match cs with
  | '0' :: 'x' :: rest => parseNatRun isHexDigit hexVal 16 rest
  | '0' :: 'X' :: rest => parseNatRun isHexDigit hexVal 16 rest
  | _ => parseNatRun Char.isDigit (fun c => c.toNat - 48) 10 cs

/-- JavaScript `parseInt(s)`: skip leading whitespace, optional sign, then
the leading digit run; `none` models `NaN`. -/
def jsParseInt (s : String) : Option Int :=
  let cs := s.data.dropWhile isJsWhitespace
  match cs with
  | '-' :: rest => (parseUnsigned rest).map (fun n => -(n : Int))
  | '+' :: rest => (parseUnsigned rest).map (fun n => (n : Int))
  | _ => (parseUnsigned cs).map (fun n => (n : Int))

/-- The quantity derivation `parseInt(productQuantity.value) || 1` used by
`updateOrderSummary` and `getOrderData` (`script.js`): the parsed value,
except that the falsy results `NaN` and `0` become `1`. -/
def jsQuantity (value : String) : Int :=
  match jsParseInt value with
  | none => 1
  | some n => if n = 0 then 1 else n

/-- The customer-entered form fields read by `validateForm` and
`getOrderData`. -/
structure FormFields where
  name : String
  phone : String
  email : String
  address : String
  size : String
deriving DecidableEq

/-- The email regex `/^[^\s@]+@[^\s@]+\.[^\s@]+$/` of `isValidEmail`
(`script.js`): a nonempty run without whitespace or `@`, one `@`, then a
nonempty run, a dot and a nonempty run (so exactly one `@`, no whitespace
anywhere, and a dot strictly inside the part after the `@`). -/
def isValidEmail (email : String) : Bool :=
  let cs := email.data
  let localPart := cs.takeWhile (fun c => c != '@')
  match cs.dropWhile (fun c => c != '@') with
  | [] => false
  | _ :: domainPart =>
    !localPart.isEmpty && domainPart.all (fun c => c != '@') &&
    cs.all (fun c => !isJsWhitespace c) &&
    ((domainPart.drop 1).dropLast).contains '.'

/-- Spec reading of the email pattern, stated from the claim text: at least
one `@` with a `.` somewhere after it, and no whitespace.  To be compared
with `isValidEmail`, the pattern the code actually applies. -/
def specEmailPattern (email : String) : Bool :=
  let cs := email.data
  cs.all (fun c => !isJsWhitespace c) &&
  (match cs.dropWhile (fun c => c != '@') with
   | [] => false
   | _ :: t => t.contains '.')

/-- The `validateForm` of `script.js`: name, phone, address and size must be
non-empty (JavaScript falsiness of a string is emptiness), and a non-empty
email must pass `isValidEmail`. -/
def validateForm (f : FormFields) : Bool :=
  if f.name == "" || f.phone == "" || f.address == "" || f.size == "" then false
  else if f.email != "" && !isValidEmail f.email then false
  else true

/-- Which branch of `validateForm` fires: the required-fields alert, the
invalid-email alert, or success. -/
inductive ValidationOutcome where
  | ok
  | missingFields
  | invalidEmail
deriving DecidableEq

/-- The branch taken by `validateForm` (`script.js`), naming the alert that
is shown to the user. -/
def validateFormOutcome (f : FormFields) : ValidationOutcome :=
  if f.name == "" || f.phone == "" || f.address == "" || f.size == "" then
    ValidationOutcome.missingFields
  else if f.email != "" && !isValidEmail f.email then ValidationOutcome.invalidEmail
  else ValidationOutcome.ok

/-- The `validateForm` of the legacy script in `HHMIBrothers/products.js`:
email is a required field there and is always checked against the regex. -/
def validateFormLegacy (f : FormFields) : Bool :=
  if f.name == "" || f.phone == "" || f.email == "" || f.address == "" || f.size == "" then
    false
  else isValidEmail f.email

/-- Mutable page state relevant to the order flow: `currentProduct`, the
modal visibility, and the quantity input value. -/
structure OrderState where
  currentProduct : Option Product
  modalOpen : Bool
  quantityInput : String
deriving DecidableEq

/-- Result of `openOrderModal`: either the modal opened on a found product,
or the `console.error` branch for an unknown id. -/
inductive SelectOutcome where
  | opened
  | notFound
deriving DecidableEq

/-- The `openOrderModal` of `script.js`: `currentProduct` is assigned the
result of `products.find(p => p.id === productId)` (so it is cleared when
nothing matches), and only on a hit is the modal shown. -/
def openOrderModal (catalog : List Product) (productId : Nat) (st : OrderState) :
    OrderState × SelectOutcome :=
  match catalog.find? (fun p => p.id == productId) with
  | some p => ({ st with currentProduct := some p, modalOpen := true }, SelectOutcome.opened)
  | none => ({ st with currentProduct := none }, SelectOutcome.notFound)

/-- The state produced by `closeOrderModal` (`script.js`): modal hidden,
form reset, quantity input back to 1, `currentProduct` null. -/
def closedOrderState : OrderState :=
  ⟨none, false, "1"⟩

/-- The order record assembled by `getOrderData` (`script.js`) from the
current product, the quantity input, the form fields, the
special-instructions field and `new Date().toLocaleString()` (passed in as
`orderTime`). -/
structure OrderData where
  product : String
  price : Nat
  quantity : Int
  total : Int
  name : String
  phone : String
  email : String
  address : String
  size : String
  specialInstr : String
  time : String
deriving DecidableEq

/-- The `getOrderData` of `script.js`. -/
def getOrderData (currentProduct : Product) (quantityValue : String)
    (f : FormFields) (specialInstr orderTime : String) : OrderData :=
  let quantity := jsQuantity quantityValue
  { product := currentProduct.name
    price := currentProduct.price
    quantity := quantity
    total := (currentProduct.price : Int) * quantity
    name := f.name
    phone := f.phone
    email := f.email
    address := f.address
    size := f.size
    specialInstr := specialInstr
    time := orderTime }

/-- Grouping step of `Number.prototype.toLocaleString()`: inserts a
separator after every three digits, working from the least significant end
(digit list given reversed). -/
def groupRev : List Char → List Char
  | a :: b :: c :: d :: rest => a :: b :: c :: ',' :: groupRev (d :: rest)
  | l => l

/-- Models `n.toLocaleString()` for a nonnegative amount under the en-US
default locale: decimal digits with a comma every three. -/
def toLocaleStringNat (n : Nat) : String :=
  ⟨(groupRev (Nat.toDigits 10 n).reverse).reverse⟩

/-- Models `i.toLocaleString()` for a possibly negative integer total. -/
def toLocaleStringInt (i : Int) : String :=
  if i < 0 then "-" ++ toLocaleStringNat i.natAbs else toLocaleStringNat i.natAbs

/-- The `formatOrderMessage` of `script.js` (the simplified template):
order-details block, customer-info block (email line only when an email was
given), instructions block defaulting to the literal text `None`, order
time, separator rule and footer. -/
def formatOrderMessage (d : OrderData) : String :=
  "🛍️ NEW ORDER - HHMI Brothers\n\n📦 ORDER DETAILS:\nProduct: " ++ d.product ++
  "\nPrice: PKR " ++ toLocaleStringNat d.price ++
  "\nQuantity: " ++ toString d.quantity ++
  "\nTotal: PKR " ++ toLocaleStringInt d.total ++
  "\nSize: " ++ d.size ++
  "\n\n👤 CUSTOMER INFO:\nName: " ++ d.name ++
  "\nPhone: " ++ d.phone ++ "\n" ++
  (if d.email != "" then "Email: " ++ d.email else "") ++
  "\nAddress: " ++ d.address ++
  "\n\n📝 INSTRUCTIONS:\n" ++
  (if d.specialInstr != "" then d.specialInstr else "None") ++
  "\n⏰ Order Time: " ++ d.time ++
  ";\n───────────────────────\nOrder placed via HHMI Brothers Website\nPlease process this order and contact the customer for confirmation."

/-- The `formatOrderMessage` of the legacy script in
`HHMIBrothers/products.js` (labels and rules differ; email line always
present there). -/
def formatOrderMessageLegacy (d : OrderData) : String :=
  "NEW ORDER - HHMI Brothers\n\nORDER DETAILS:\n────────────────\nProduct: " ++ d.product ++
  "\nUnit Price: PKR " ++ toLocaleStringNat d.price ++
  "\nQuantity: " ++ toString d.quantity ++
  "\nTotal Amount: PKR " ++ toLocaleStringInt d.total ++
  "\n\nCUSTOMER INFORMATION:\n────────────────\nFull Name: " ++ d.name ++
  "\nPhone: " ++ d.phone ++
  "\nEmail: " ++ d.email ++
  "\nDelivery Address: " ++ d.address ++
  "\nSize: " ++ d.size ++
  "\n\nSPECIAL INSTRUCTIONS:\n────────────────\n" ++
  (if d.specialInstr != "" then d.specialInstr else "None") ++
  "\n\n────────────────\nOrder placed via HHMI Brothers Website\nOrder Time: " ++ d.time ++
  "\nPlease process this order and contact the customer for confirmation."

/-- The characters `encodeURIComponent` leaves unescaped: ASCII
alphanumerics and `- _ . ! ~ * ' ( )`. -/
def isUriUnreserved (c : Char) : Bool :=
  c.isAlpha || c.isDigit || c == '-' || c == '_' || c == '.' || c == '!' ||
  c == '~' || c == '*' || c == '\x27' || c == '(' || c == ')'

/-- Uppercase hexadecimal digit for a value below 16. -/
def hexDigitChar (n : Nat) : Char :=
  if n < 10 then Char.ofNat (48 + n) else Char.ofNat (55 + n)

/-- UTF-8 byte sequence of a Unicode scalar value. -/
def utf8Bytes (c : Char) : List Nat :=
  let n := c.toNat
  if n < 128 then [n]
  else if n < 2048 then [192 + n / 64, 128 + n % 64]
  else if n < 65536 then [224 + n / 4096, 128 + (n / 64) % 64, 128 + n % 64]
  else [240 + n / 262144, 128 + (n / 4096) % 64, 128 + (n / 64) % 64, 128 + n % 64]

/-- Percent-encoding of one character as done by `encodeURIComponent`. -/
def percentEncodeChar (c : Char) : List Char :=
  if isUriUnreserved c then [c]
  else (utf8Bytes c).foldr
    (fun b acc => '%' :: hexDigitChar (b / 16) :: hexDigitChar (b % 16) :: acc) []

/-- JavaScript `encodeURIComponent`. -/
def encodeURIComponent (s : String) : String :=
  ⟨s.data.foldr (fun c acc => percentEncodeChar c ++ acc) []⟩

/-- The WhatsApp destination number of `placeWhatsAppOrder` in `script.js`
(comment in source: no `+` sign for WhatsApp). -/
def waPhone : String := "923429438436"

/-- The WhatsApp destination number of the legacy `placeWhatsAppOrder` in
`HHMIBrothers/products.js` (kept there with a leading `+`). -/
def waPhoneLegacy : String := "+923441092910"

/-- The `placeWhatsAppOrder` of `script.js`: on validation failure it
returns without touching anything; otherwise it builds
`https://wa.me/<phone>?text=<encoded message>`, opens it and closes the
modal.  A missing `currentProduct` would throw in JavaScript before any
state change; that is modelled as no action. -/
def placeWhatsAppOrder (st : OrderState) (f : FormFields)
    (specialInstr orderTime : String) : OrderState × Option String :=
  if validateForm f then
    match st.currentProduct with
    | none => (st, none)
    | some p =>
      let d := getOrderData p st.quantityInput f specialInstr orderTime
      let url := "https://wa.me/" ++ waPhone ++ "?text=" ++
        encodeURIComponent (formatOrderMessage d)
      (closedOrderState, some url)
  else (st, none)

/-- The legacy `placeWhatsAppOrder` of `HHMIBrothers/products.js`: same
shape, but with the legacy validator, the legacy message template and the
`+`-prefixed phone constant. -/
def placeWhatsAppOrderLegacy (st : OrderState) (f : FormFields)
    (specialInstr orderTime : String) : OrderState × Option String :=
  if validateFormLegacy f then
    match st.currentProduct with
    | none => (st, none)
    | some p =>
      let d := getOrderData p st.quantityInput f specialInstr orderTime
      let url := "https://wa.me/" ++ waPhoneLegacy ++ "?text=" ++
        encodeURIComponent (formatOrderMessageLegacy d)
      (closedOrderState, some url)
  else (st, none)

/-- The email-channel payload built by `placeEmailOrder` (`script.js`):
the copy-to-clipboard text, the destination address and the subject. -/
structure EmailAction where
  content : String
  email : String
  subject : String
deriving DecidableEq

/-- The `emailContent` template of `placeEmailOrder` (`script.js`): the
formatted message followed by an order summary block. -/
def emailOrderContent (d : OrderData) : String :=
  formatOrderMessage d ++
  "\n\n---\nORDER SUMMARY:\n• Product: " ++ d.product ++
  "\n• Size: " ++ d.size ++ "  " ++
  "\n• Quantity: " ++ toString d.quantity ++
  "\n• Total: PKR " ++ toLocaleStringInt d.total ++
  "\n• Customer: " ++ d.name ++
  "\n• Phone: " ++ d.phone ++
  "\n• Address: " ++ d.address ++ "\n" ++
  (if d.email != "" then "• Email: " ++ d.email else "") ++ "\n" ++
  (if d.specialInstr != "" then "• Instructions: " ++ d.specialInstr else "") ++
  "\n\nThank you for your order! We\x27ll contact you within 24 hours. 📦"

/-- The `placeEmailOrder` of `script.js`: on validation failure it returns
without touching anything; otherwise it builds the clipboard payload and
hands it to the copy-instructions popup (the order modal stays open until
the user dismisses that popup). -/
def placeEmailOrder (st : OrderState) (f : FormFields)
    (specialInstr orderTime : String) : OrderState × Option EmailAction :=
  if validateForm f then
    match st.currentProduct with
    | none => (st, none)
    | some p =>
      let d := getOrderData p st.quantityInput f specialInstr orderTime
      (st, some ⟨emailOrderContent d, "hhmibrothers@gmail.com",
        "NEW ORDER - HHMI Brothers - " ++ d.product⟩)
  else (st, none)

/-- Conversation-log entry pushed by `addUserMessage` / `addBotMessage`
(`ai-assistant.js`). -/
structure ChatMessage where
  msgType : String
  content : String
  timestamp : String
deriving DecidableEq

/-- The `saveConversationHistory` of `ai-assistant.js`: the in-memory
history is cut to its last 20 entries when longer, and that value is then
written to `localStorage`.  Returns (new in-memory history, stored value). -/
def saveConversationHistory (conversationHistory : List ChatMessage) :
    List ChatMessage × List ChatMessage :=
  let trimmed :=
    if conversationHistory.length > 20 then
      conversationHistory.drop (conversationHistory.length - 20)
    else conversationHistory
  (trimmed, trimmed)

/-- A run of the chat widget: each incoming message is appended to the
history and `saveConversationHistory` is called, exactly as
`addUserMessage` / `addBotMessage` do.  Returns the sequence of values
written to the preference store. -/
def runChat (conversationHistory : List ChatMessage) :
    List ChatMessage → List (List ChatMessage)
  | [] => []
  | m :: ms =>
    let r := saveConversationHistory (conversationHistory ++ [m])
    r.2 :: runChat r.1 ms

/-! Helper lemmas. -/

lemma validateForm_eq_outcome (f : FormFields) :
    validateForm f = true ↔ validateFormOutcome f = ValidationOutcome.ok := by
  unfold validateForm validateFormOutcome
  split_ifs <;> simp

lemma save_stored_bound (h : List ChatMessage) :
    (saveConversationHistory h).2.length ≤ 20 ∧ (saveConversationHistory h).2 <:+ h ∧
      (20 ≤ h.length → (saveConversationHistory h).2.length = 20) := by
  unfold saveConversationHistory
  dsimp only
  split_ifs with hl
  · refine ⟨?_, List.drop_suffix _ _, ?_⟩
    · rw [List.length_drop]; omega
    · intro _; rw [List.length_drop]; omega
  · exact ⟨by omega, List.suffix_refl _, fun h20 => by omega⟩

/-- C2 (counterexample): the claim says the inputs `"-3"` and `"2.5"` both
yield quantity 1; the code computes `parseInt(value) || 1`, which yields
`-3` (a truthy negative) and `2` (`parseInt` truncates) respectively. -/
theorem quantity_counterexample :
    jsQuantity "-3" = -3 ∧ jsQuantity "-3" ≠ 1 ∧
    jsQuantity "2.5" = 2 ∧ jsQuantity "2.5" ≠ 1 := by
  decide

/-- C2 (amended): the derived quantity is `parseInt(value)` with the falsy
results `NaN` and `0` replaced by 1: `"0"` and `"abc"` give 1 and `"4"`
gives 4 as claimed, but `"-3"` gives `-3` and `"2.5"` gives `2`; in general
a non-parsable or zero input gives 1 and any other input gives the parsed
(truncated, possibly negative) integer. -/
theorem quantity_coercion (v : String) :
    jsQuantity "0" = 1 ∧ jsQuantity "abc" = 1 ∧ jsQuantity "4" = 4 ∧
    jsQuantity "-3" = -3 ∧ jsQuantity "2.5" = 2 ∧
    (jsParseInt v = none ∨ jsParseInt v = some 0 → jsQuantity v = 1) ∧
    ∀ n : Int, jsParseInt v = some n → n ≠ 0 → jsQuantity v = n := by
  refine ⟨by decide, by decide, by decide, by decide, by decide, ?_, ?_⟩
  · intro h
    unfold jsQuantity
    rcases h with h | h <;> simp [h]
  · intro n h hn
    unfold jsQuantity
    rw [h]
    simp [hn]

/-- C2 (witness): a concrete parsable nonzero input handled by the general
clauses of `quantity_coercion`. -/
theorem quantity_coercion_witness :
    jsParseInt "007" = some 7 ∧ jsQuantity "007" = 7 :=
  ⟨by decide, (quantity_coercion "007").2.2.2.2.2.2 7 (by decide) (by decide)⟩

/-- C3 (counterexample): the claim describes the accepted email pattern as
"at least one `@` with a `.` after it and no whitespace"; the address
`a@b@c.d` satisfies that description, yet the code's regex
`/^[^\s@]+@[^\s@]+\.[^\s@]+$/` admits exactly one `@`, so validation fails
on a submission with all required fields filled.  Moreover the claim's
"email empty succeeds" already fails on the legacy validator of
`HHMIBrothers/products.js`, where email is a required field. -/
theorem validate_email_gloss_counterexample :
    validateForm ⟨"Ali", "0300", "a@b@c.d", "Street 1", "M"⟩ = false ∧
    specEmailPattern "a@b@c.d" = true ∧
    validateFormOutcome ⟨"Ali", "0300", "a@b@c.d", "Street 1", "M"⟩ =
      ValidationOutcome.invalidEmail ∧
    validateFormLegacy ⟨"Ali", "0300", "", "Street 1", "M"⟩ = false := by
  decide

/-- C3 (amended): in the current `script.js` validator, validation succeeds
iff name, phone, address and size are non-empty and the email is empty or
matches the code's regex (exactly one `@`, a nonempty whitespace-free part
before it, and a `.` strictly inside the part after it); `not-an-email`
fails and the empty email succeeds.  In the legacy validator of
`HHMIBrothers/products.js`, email is a required fifth field and is always
regex-checked, so there validation succeeds iff all five fields are
non-empty and the email matches the regex; in particular the empty email
fails there. -/
theorem validate_iff (f : FormFields) :
    (validateForm f = true ↔
      f.name ≠ "" ∧ f.phone ≠ "" ∧ f.address ≠ "" ∧ f.size ≠ "" ∧
      (f.email = "" ∨ isValidEmail f.email = true)) ∧
    validateForm ⟨"Ali", "0300", "not-an-email", "Street 1", "M"⟩ = false ∧
    validateForm ⟨"Ali", "0300", "", "Street 1", "M"⟩ = true ∧
    (validateFormLegacy f = true ↔
      f.name ≠ "" ∧ f.phone ≠ "" ∧ f.email ≠ "" ∧ f.address ≠ "" ∧ f.size ≠ "" ∧
      isValidEmail f.email = true) ∧
    validateFormLegacy ⟨"Ali", "0300", "", "Street 1", "M"⟩ = false ∧
    validateFormLegacy ⟨"Ali", "0300", "not-an-email", "Street 1", "M"⟩ = false := by
  refine ⟨?_, by decide, by decide, ?legacy, by decide, by decide⟩
  case legacy =>
    unfold validateFormLegacy
    split_ifs with h1
    · simp only [Bool.or_eq_true, beq_iff_eq] at h1
      constructor
      · intro h; cases h
      · rintro ⟨hn, hp, he, ha, hs, _⟩
        tauto
    · simp only [Bool.or_eq_true, beq_iff_eq] at h1
      push_neg at h1
      obtain ⟨⟨⟨⟨hn, hp⟩, he⟩, ha⟩, hs⟩ := h1
      constructor
      · intro hv
        exact ⟨hn, hp, he, ha, hs, hv⟩
      · rintro ⟨_, _, _, _, _, hv⟩
        exact hv
  unfold validateForm
  split_ifs with h1 h2
  · simp only [Bool.or_eq_true, beq_iff_eq] at h1
    constructor
    · intro h; cases h
    · rintro ⟨hn, hp, ha, hs, _⟩
      tauto
  · simp only [Bool.or_eq_true, beq_iff_eq] at h1
    simp only [Bool.and_eq_true, bne_iff_ne, Bool.not_eq_true'] at h2
    constructor
    · intro h; cases h
    · rintro ⟨_, _, _, _, he⟩
      rcases he with he | he
      · exact h2.1 he
      · rw [h2.2] at he; cases he
  · simp only [Bool.or_eq_true, beq_iff_eq] at h1
    simp only [Bool.and_eq_true, bne_iff_ne, Bool.not_eq_true'] at h2
    push_neg at h1
    obtain ⟨⟨⟨hn, hp⟩, ha⟩, hs⟩ := h1
    constructor
    · intro _
      refine ⟨hn, hp, ha, hs, ?_⟩
      by_cases he : f.email = ""
      · exact Or.inl he
      · right
        cases hb : isValidEmail f.email
        · exact absurd ⟨he, hb⟩ h2
        · rfl
    · intro _; rfl

/-- C3 (witness): a fully valid submission accepted through both amended
characterizations. -/
theorem validate_iff_witness :
    validateForm ⟨"Ali", "0300", "ali@mail.com", "Street 1", "M"⟩ = true ∧
    validateFormLegacy ⟨"Ali", "0300", "ali@mail.com", "Street 1", "M"⟩ = true :=
  ⟨((validate_iff ⟨"Ali", "0300", "ali@mail.com", "Street 1", "M"⟩).1).mpr
    ⟨by decide, by decide, by decide, by decide, Or.inr (by decide)⟩,
   ((validate_iff ⟨"Ali", "0300", "ali@mail.com", "Street 1", "M"⟩).2.2.2.1).mpr
    ⟨by decide, by decide, by decide, by decide, by decide, by decide⟩⟩

/-- C5: selecting an id absent from the catalog takes the error branch of
`openOrderModal`, leaves the selection cleared (in particular it is not any
catalog product, so no silent default to the first product), and does not
open the modal. -/
theorem select_notFound (catalog : List Product) (productId : Nat) (st : OrderState)
    (h : ∀ p ∈ catalog, p.id ≠ productId) :
    (openOrderModal catalog productId st).2 = SelectOutcome.notFound ∧
    (openOrderModal catalog productId st).1.currentProduct = none ∧
    (openOrderModal catalog productId st).1.modalOpen = st.modalOpen ∧
    ∀ q ∈ catalog, (openOrderModal catalog productId st).1.currentProduct ≠ some q := by
  have hf : catalog.find? (fun p => p.id == productId) = none := by
    rw [List.find?_eq_none]
    intro p hp
    simp [h p hp]
  unfold openOrderModal
  rw [hf]
  exact ⟨rfl, rfl, rfl, fun q _ => by simp⟩

/-- C5 (witness): id 999 is in no product of the shipped catalog; selecting
it reports the error and leaves the selection empty. -/
theorem select_notFound_witness :
    (∀ p ∈ products, p.id ≠ 999) ∧
    (openOrderModal products 999 ⟨none, false, "1"⟩).2 = SelectOutcome.notFound ∧
    (openOrderModal products 999 ⟨none, false, "1"⟩).1.currentProduct = none :=
  ⟨by decide, (select_notFound products 999 ⟨none, false, "1"⟩ (by decide)).1,
    (select_notFound products 999 ⟨none, false, "1"⟩ (by decide)).2.1⟩

/-- C6: when validation fails, neither order-placement handler changes any
state or builds a channel action: the whole state (selection, modal
visibility, quantity input) is returned unchanged, the action is `none`, and
the validation outcome reported to the user is not `ok`. -/
theorem validation_failure_no_transition (st : OrderState) (f : FormFields)
    (specialInstr orderTime : String) (h : validateForm f = false) :
    placeWhatsAppOrder st f specialInstr orderTime = (st, none) ∧
    placeEmailOrder st f specialInstr orderTime = (st, none) ∧
    validateFormOutcome f ≠ ValidationOutcome.ok := by
  refine ⟨?_, ?_, ?_⟩
  · unfold placeWhatsAppOrder; rw [h]; rfl
  · unfold placeEmailOrder; rw [h]; rfl
  · intro hc
    have := (validateForm_eq_outcome f).mpr hc
    rw [h] at this
    cases this

/-- C6 (witness): a submission with an empty name fails validation and both
handlers leave a concrete selected state untouched. -/
theorem validation_failure_no_transition_witness :
    validateForm ⟨"", "0300", "", "Street 1", "M"⟩ = false ∧
    placeWhatsAppOrder ⟨some ⟨1, "P", 100, "", "", ""⟩, true, "3"⟩
      ⟨"", "0300", "", "Street 1", "M"⟩ "" "t" =
      (⟨some ⟨1, "P", 100, "", "", ""⟩, true, "3"⟩, none) ∧
    placeEmailOrder ⟨some ⟨1, "P", 100, "", "", ""⟩, true, "3"⟩
      ⟨"", "0300", "", "Street 1", "M"⟩ "" "t" =
      (⟨some ⟨1, "P", 100, "", "", ""⟩, true, "3"⟩, none) :=
  ⟨by decide,
   (validation_failure_no_transition _ _ "" "t" (by decide)).1,
   (validation_failure_no_transition _ _ "" "t" (by decide)).2.1⟩

/-- C9: every value `saveConversationHistory` writes to the preference
store has at most 20 entries and is a suffix (the most recent entries) of
the history, exactly 20 of them once the history reaches 20; consequently in
any run of the chat widget every stored log is bounded by 20. -/
theorem conversationLog_bounded :
    (∀ h : List ChatMessage,
      (saveConversationHistory h).2.length ≤ 20 ∧
      (saveConversationHistory h).2 <:+ h ∧
      (20 ≤ h.length → (saveConversationHistory h).2.length = 20)) ∧
    ∀ (init msgs : List ChatMessage),
      (runChat init msgs).all (fun w => decide (w.length ≤ 20)) = true := by
  refine ⟨save_stored_bound, ?_⟩
  intro init msgs
  induction msgs generalizing init with
  | nil => rfl
  | cons m ms ih =>
    simp only [runChat, List.all_cons, Bool.and_eq_true]
    exact ⟨decide_eq_true (save_stored_bound _).1, ih _⟩

/-- C9 (witness): a 25-entry history is cut to exactly its last 20 entries
on save. -/
theorem conversationLog_bounded_witness :
    (saveConversationHistory (List.replicate 25 ⟨"user", "hi", "t"⟩)).2.length ≤ 20 ∧
    20 ≤ (List.replicate 25 (⟨"user", "hi", "t"⟩ : ChatMessage)).length ∧
    (saveConversationHistory (List.replicate 25 ⟨"user", "hi", "t"⟩)).2.length = 20 :=
  ⟨(conversationLog_bounded.1 _).1, by decide,
   (conversationLog_bounded.1 _).2.2 (by decide)⟩

/-- C10 (implicit): the required-field branch fires iff one of name, phone,
address, size is exactly the empty string, so all-whitespace values such as
a single space pass the required-field stage. -/
theorem requiredFields_whitespace (f : FormFields) :
    validateFormOutcome f = ValidationOutcome.missingFields ↔
      f.name = "" ∨ f.phone = "" ∨ f.address = "" ∨ f.size = "" := by
  unfold validateFormOutcome
  split_ifs with h1 h2
  · simp only [Bool.or_eq_true, beq_iff_eq] at h1
    constructor
    · intro _; tauto
    · intro _; rfl
  · simp only [Bool.or_eq_true, beq_iff_eq] at h1
    constructor
    · intro h; exact absurd h (by decide)
    · intro h; tauto
  · simp only [Bool.or_eq_true, beq_iff_eq] at h1
    constructor
    · intro h; exact absurd h (by decide)
    · intro h; tauto

/-- C10 (witness): all-whitespace required fields (with the optional email
left empty) pass the whole validation. -/
theorem requiredFields_whitespace_witness :
    validateFormOutcome ⟨" ", " ", "", " ", " "⟩ ≠ ValidationOutcome.missingFields ∧
    validateFormOutcome ⟨" ", " ", "", " ", " "⟩ = ValidationOutcome.ok :=
  ⟨fun h => absurd ((requiredFields_whitespace ⟨" ", " ", "", " ", " "⟩).mp h) (by decide),
   by decide⟩

lemma toLower_of_jsWhitespace {c : Char} (h : isJsWhitespace c = true) :
    c.toLower = c := by
  have hn : ¬(c.toNat ≥ 65 ∧ c.toNat ≤ 90) := by
    simp only [isJsWhitespace, Bool.or_eq_true, beq_iff_eq, Bool.and_eq_true,
      decide_eq_true_eq] at h
    omega
  simp only [Char.toLower]
  rw [if_neg hn]

lemma jsToLower_whitespace_only {s : String} (h : isWhitespaceOnly s = true) :
    isWhitespaceOnly (jsToLower s) = true := by
  unfold isWhitespaceOnly jsToLower at *
  simp only [List.all_eq_true] at *
  intro c hc
  obtain ⟨a, ha, rfl⟩ := List.mem_map.mp hc
  rw [toLower_of_jsWhitespace (h a ha)]
  exact h a ha

lemma jsTrim_whitespace_only {s : String} (h : isWhitespaceOnly s = true) :
    jsTrim s = "" := by
  unfold jsTrim
  have h1 : s.data.dropWhile isJsWhitespace = [] := by
    rw [List.dropWhile_eq_nil_iff]
    intro x hx
    exact (List.all_eq_true.mp h) x hx
  rw [h1]
  rfl

/-- C1 (counterexample): the claim requires every returned product to
contain the raw search term case-insensitively; the code trims the term
before matching, so the padded term `"jacket "` returns a product named
`Jacket` even though no field contains `"jacket "`. -/
theorem search_raw_term_counterexample :
    performSearch [⟨1, "Jacket", 100, "img", "", ""⟩] "jacket " =
      [⟨1, "Jacket", 100, "img", "", ""⟩] ∧
    specSearchMatch "jacket " ⟨1, "Jacket", 100, "img", "", ""⟩ = false := by
  decide

/-- C1 (amended): the filtering step returns exactly the catalog products
whose lowercased name, description or category contains the lowercased and
trimmed search term (every returned product matches, every non-matching
catalog product is excluded, order preserved), and a term that trims to
empty — in particular any whitespace-only term — returns the whole
catalog. -/
theorem search_filter_characterization (catalog : List Product) (t : String) :
    performSearch catalog t =
      catalog.filter (fun p =>
        (jsTrim (jsToLower t) == "") || matchesSearch (jsTrim (jsToLower t)) p) ∧
    (∀ p : Product, p ∈ performSearch catalog t ↔
      p ∈ catalog ∧
        (jsTrim (jsToLower t) = "" ∨ matchesSearch (jsTrim (jsToLower t)) p = true)) ∧
    (isWhitespaceOnly t = true → performSearch catalog t = catalog) := by
  have base : performSearch catalog t =
      catalog.filter (fun p =>
        (jsTrim (jsToLower t) == "") || matchesSearch (jsTrim (jsToLower t)) p) := by
    unfold performSearch
    by_cases h : jsTrim (jsToLower t) = ""
    · rw [if_pos h]
      simp [h]
    · rw [if_neg h]
      have hb : (jsTrim (jsToLower t) == "") = false := by simp [h]
      simp [hb]
  refine ⟨base, ?_, ?_⟩
  · intro p
    rw [base, List.mem_filter]
    simp only [Bool.or_eq_true, beq_iff_eq]
  · intro hws
    unfold performSearch
    rw [if_pos (jsTrim_whitespace_only (jsToLower_whitespace_only hws))]

/-- C1 (witness): a whitespace-only search over the shipped catalog returns
every product. -/
theorem search_filter_characterization_witness :
    isWhitespaceOnly "   " = true ∧ performSearch products "   " = products :=
  ⟨by decide, (search_filter_characterization products "   ").2.2 (by decide)⟩

lemma infix_append_left {n m : List Char} (l : List Char) (h : n <:+: m) :
    n <:+: l ++ m :=
  h.trans (List.suffix_append l m).isInfix

lemma infix_append_right {n m : List Char} (r : List Char) (h : n <:+: m) :
    n <:+: m ++ r :=
  h.trans (List.prefix_append m r).isInfix

lemma formatOrderMessage_data (d : OrderData) :
    (formatOrderMessage d).data =
      "🛍️ NEW ORDER - HHMI Brothers\n\n📦 ORDER DETAILS:\nProduct: ".data ++
      (d.product.data ++
      (("\nPrice: PKR " ++ toLocaleStringNat d.price ++ "\nQuantity: " ++
        toString d.quantity ++ "\nTotal: PKR " ++ toLocaleStringInt d.total ++
        "\nSize: ").data ++
      (d.size.data ++
      ("\n\n👤 CUSTOMER INFO:\nName: ".data ++
      (d.name.data ++
      ("\nPhone: ".data ++
      (d.phone.data ++
      ("\n".data ++
      ((if d.email != "" then "Email: " ++ d.email else "").data ++
      ("\nAddress: ".data ++
      (d.address.data ++
      (("\n\n📝 INSTRUCTIONS:\n" ++
        (if d.specialInstr != "" then d.specialInstr else "None") ++
        "\n⏰ Order Time: ").data ++
      (d.time.data ++
      ";\n───────────────────────\nOrder placed via HHMI Brothers Website\nPlease process this order and contact the customer for confirmation.".data))))))))))))) := by
  simp only [formatOrderMessage, String.data_append, List.append_assoc]

set_option maxRecDepth 4000 in
/-- C4 (counterexample): for a product priced 4299 ordered with quantity 2
the total is 8598, but `toLocaleString()` groups digits, so the formatted
message contains `4,299` and `8,598` and never the claimed literal
substrings `4299` and `8598`. -/
theorem order_message_grouping_counterexample :
    (getOrderData ⟨2, "Womens Jacket", 4299, "img", "d", "leather"⟩ "2"
      ⟨"Ali", "0300", "", "Street 1", "M"⟩ "" "1/1/2025").price = 4299 ∧
    (getOrderData ⟨2, "Womens Jacket", 4299, "img", "d", "leather"⟩ "2"
      ⟨"Ali", "0300", "", "Street 1", "M"⟩ "" "1/1/2025").quantity = 2 ∧
    (getOrderData ⟨2, "Womens Jacket", 4299, "img", "d", "leather"⟩ "2"
      ⟨"Ali", "0300", "", "Street 1", "M"⟩ "" "1/1/2025").total = 8598 ∧
    substrB (formatOrderMessage (getOrderData ⟨2, "Womens Jacket", 4299, "img", "d", "leather"⟩ "2"
      ⟨"Ali", "0300", "", "Street 1", "M"⟩ "" "1/1/2025")) "4299" = false ∧
    substrB (formatOrderMessage (getOrderData ⟨2, "Womens Jacket", 4299, "img", "d", "leather"⟩ "2"
      ⟨"Ali", "0300", "", "Street 1", "M"⟩ "" "1/1/2025")) "8598" = false ∧
    substrB (formatOrderMessage (getOrderData ⟨2, "Womens Jacket", 4299, "img", "d", "leather"⟩ "2"
      ⟨"Ali", "0300", "", "Street 1", "M"⟩ "" "1/1/2025")) "4,299" = true := by
  decide

/-- C4 (amended): for every order composed from a product priced 4299 with
quantity 2 the computed total is 8598; the formatted message carries the
grouped renderings `4,299` at the unit-price position and `8,598` at the
total position; and when the instructions field is empty the instructions
block is the literal text `None`. -/
theorem order_total_message (p : Product) (f : FormFields)
    (specialInstr orderTime qv : String)
    (hp : p.price = 4299) (hq : jsQuantity qv = 2) :
    (getOrderData p qv f specialInstr orderTime).total = 8598 ∧
    substrB (formatOrderMessage (getOrderData p qv f specialInstr orderTime))
      "\nPrice: PKR 4,299\nQuantity: 2\nTotal: PKR 8,598\n" = true ∧
    (specialInstr = "" →
      substrB (formatOrderMessage (getOrderData p qv f specialInstr orderTime))
        "📝 INSTRUCTIONS:\nNone\n⏰ Order Time: " = true) := by
  have hpd : (getOrderData p qv f specialInstr orderTime).price = 4299 := by
    simp [getOrderData, hp]
  have hqd : (getOrderData p qv f specialInstr orderTime).quantity = 2 := by
    simp [getOrderData, hq]
  have htot : (getOrderData p qv f specialInstr orderTime).total = 8598 := by
    simp [getOrderData, hp, hq]
  refine ⟨htot, ?_, ?_⟩
  · unfold substrB
    rw [decide_eq_true_eq, formatOrderMessage_data, hpd, hqd, htot]
    have hmid : ("\nPrice: PKR " ++ toLocaleStringNat 4299 ++ "\nQuantity: " ++
        toString (2 : Int) ++ "\nTotal: PKR " ++ toLocaleStringInt 8598 ++
        "\nSize: ") = "\nPrice: PKR 4,299\nQuantity: 2\nTotal: PKR 8,598\nSize: " := by
      decide
    rw [hmid]
    apply infix_append_left
    apply infix_append_left
    apply infix_append_right
    decide
  · intro hinstr
    unfold substrB
    rw [decide_eq_true_eq, formatOrderMessage_data, hinstr]
    have hinstrD : (getOrderData p qv f "" orderTime).specialInstr = "" := rfl
    rw [hinstrD]
    have hblock : ("\n\n📝 INSTRUCTIONS:\n" ++
        (if ("" : String) != "" then ("" : String) else "None") ++
        "\n⏰ Order Time: ") = "\n\n📝 INSTRUCTIONS:\nNone\n⏰ Order Time: " := by
      decide
    rw [hblock]
    iterate 12 apply infix_append_left
    apply infix_append_right
    decide

/-- C4 (witness): the concrete 4299-priced catalog product ordered with
quantity input `"2"` and empty instructions. -/
theorem order_total_message_witness :
    (getOrderData ⟨2, "Womens Jacket", 4299, "img", "d", "leather"⟩ "2"
      ⟨"Ali", "0300", "", "Street 1", "M"⟩ "" "1/1/2025").total = 8598 ∧
    substrB (formatOrderMessage (getOrderData ⟨2, "Womens Jacket", 4299, "img", "d", "leather"⟩ "2"
      ⟨"Ali", "0300", "", "Street 1", "M"⟩ "" "1/1/2025"))
      "\nPrice: PKR 4,299\nQuantity: 2\nTotal: PKR 8,598\n" = true ∧
    substrB (formatOrderMessage (getOrderData ⟨2, "Womens Jacket", 4299, "img", "d", "leather"⟩ "2"
      ⟨"Ali", "0300", "", "Street 1", "M"⟩ "" "1/1/2025"))
      "📝 INSTRUCTIONS:\nNone\n⏰ Order Time: " = true :=
  ⟨(order_total_message _ ⟨"Ali", "0300", "", "Street 1", "M"⟩ "" "1/1/2025" "2"
      rfl (by decide)).1,
   (order_total_message _ ⟨"Ali", "0300", "", "Street 1", "M"⟩ "" "1/1/2025" "2"
      rfl (by decide)).2.1,
   (order_total_message _ ⟨"Ali", "0300", "", "Street 1", "M"⟩ "" "1/1/2025" "2"
      rfl (by decide)).2.2 rfl⟩

/-- C7 (counterexample): the claim says the fixed deployment phone number
consists of digits only, but the legacy dispatcher kept in
`HHMIBrothers/products.js` embeds the `+`-prefixed constant
`+923441092910` verbatim in the WhatsApp URL. -/
theorem whatsapp_phone_plus_counterexample :
    waPhoneLegacy.data.all Char.isDigit = false ∧
    (placeWhatsAppOrderLegacy ⟨some ⟨2, "WJ", 4299, "img", "d", "leather"⟩, true, "1"⟩
      ⟨"Ali", "0300", "ali@mail.com", "Street 1", "M"⟩ "" "now").2 =
      some ("https://wa.me/" ++ waPhoneLegacy ++ "?text=" ++
        encodeURIComponent (formatOrderMessageLegacy
          (getOrderData ⟨2, "WJ", 4299, "img", "d", "leather"⟩ "1"
            ⟨"Ali", "0300", "ali@mail.com", "Street 1", "M"⟩ "" "now"))) ∧
    validateFormLegacy ⟨"Ali", "0300", "ali@mail.com", "Street 1", "M"⟩ = true := by
  refine ⟨by decide, ?_, by decide⟩
  rfl

/-- C7 (amended): in the current `script.js` dispatcher the claim holds:
for every selected product and validated form, the WhatsApp action is
exactly `https://wa.me/<phone>?text=<percent-encoded formatted message>`
with the digits-only phone constant `923429438436`; the legacy
`products.js` variant instead uses a `+`-prefixed phone constant. -/
theorem whatsapp_url (st : OrderState) (f : FormFields)
    (specialInstr orderTime : String) (p : Product)
    (hp : st.currentProduct = some p) (hv : validateForm f = true) :
    (placeWhatsAppOrder st f specialInstr orderTime).2 =
      some ("https://wa.me/" ++ waPhone ++ "?text=" ++
        encodeURIComponent (formatOrderMessage
          (getOrderData p st.quantityInput f specialInstr orderTime))) ∧
    waPhone.data.all Char.isDigit = true ∧
    (placeWhatsAppOrder st f specialInstr orderTime).1 = closedOrderState := by
  unfold placeWhatsAppOrder
  rw [hv, hp]
  exact ⟨rfl, by decide, rfl⟩

/-- C7 (witness): a concrete selected product and valid form produce the
WhatsApp deep link. -/
theorem whatsapp_url_witness :
    validateForm ⟨"Ali", "0300", "", "Street 1", "M"⟩ = true ∧
    (placeWhatsAppOrder ⟨some ⟨2, "WJ", 4299, "img", "d", "leather"⟩, true, "2"⟩
      ⟨"Ali", "0300", "", "Street 1", "M"⟩ "" "now").2 =
      some ("https://wa.me/" ++ waPhone ++ "?text=" ++
        encodeURIComponent (formatOrderMessage
          (getOrderData ⟨2, "WJ", 4299, "img", "d", "leather"⟩ "2"
            ⟨"Ali", "0300", "", "Street 1", "M"⟩ "" "now"))) :=
  ⟨by decide,
   (whatsapp_url ⟨some ⟨2, "WJ", 4299, "img", "d", "leather"⟩, true, "2"⟩
     ⟨"Ali", "0300", "", "Street 1", "M"⟩ "" "now"
     ⟨2, "WJ", 4299, "img", "d", "leather"⟩ rfl (by decide)).1⟩

/-- C8: on a filtered set with pairwise distinct prices, the `price-high`
sort of `performSort` is exactly the reverse of the `price-low` sort. -/
theorem sort_reverse (l : List Product) (hnd : (l.map Product.price).Nodup) :
    performSort "price-high" l = (performSort "price-low" l).reverse := by
  have hsymm : ∀ {x y : Product}, x.price ≠ y.price → y.price ≠ x.price :=
    fun h => h.symm
  have hA := @List.sorted_mergeSort Product
    (fun a b : Product => decide (a.price ≤ b.price))
    (fun a b c h1 h2 => by
      simp only [decide_eq_true_eq] at *
      omega)
    (fun a b => by
      simp only [Bool.or_eq_true, decide_eq_true_eq]
      omega) l
  have hD := @List.sorted_mergeSort Product
    (fun a b : Product => decide (b.price ≤ a.price))
    (fun a b c h1 h2 => by
      simp only [decide_eq_true_eq] at *
      omega)
    (fun a b => by
      simp only [Bool.or_eq_true, decide_eq_true_eq]
      omega) l
  have hA2 : List.Pairwise (fun a b : Product => a.price ≤ b.price)
      (l.mergeSort (fun a b => decide (a.price ≤ b.price))) :=
    hA.imp (fun h => by simpa using h)
  have hD2 : List.Pairwise (fun a b : Product => b.price ≤ a.price)
      (l.mergeSort (fun a b => decide (b.price ≤ a.price))) :=
    hD.imp (fun h => by simpa using h)
  have hne : List.Pairwise (fun a b : Product => a.price ≠ b.price) l :=
    List.pairwise_map.mp hnd
  have hneA : List.Pairwise (fun a b : Product => a.price ≠ b.price)
      (l.mergeSort (fun a b => decide (a.price ≤ b.price))) :=
    ((List.mergeSort_perm l _).pairwise_iff hsymm).mpr hne
  have hneD : List.Pairwise (fun a b : Product => a.price ≠ b.price)
      (l.mergeSort (fun a b => decide (b.price ≤ a.price))) :=
    ((List.mergeSort_perm l _).pairwise_iff hsymm).mpr hne
  have hsD : List.Pairwise (fun a b : Product => b.price < a.price)
      (l.mergeSort (fun a b => decide (b.price ≤ a.price))) :=
    (hD2.and hneD).imp (fun h => lt_of_le_of_ne h.1 (Ne.symm h.2))
  have hsArev : List.Pairwise (fun a b : Product => b.price < a.price)
      ((l.mergeSort (fun a b => decide (a.price ≤ b.price))).reverse) := by
    rw [List.pairwise_reverse]
    exact (hA2.and hneA).imp (fun h => lt_of_le_of_ne h.1 h.2)
  have hperm : (l.mergeSort (fun a b => decide (b.price ≤ a.price))).Perm
      ((l.mergeSort (fun a b => decide (a.price ≤ b.price))).reverse) :=
    ((List.mergeSort_perm l _).trans
      (List.mergeSort_perm l _).symm).trans (List.reverse_perm _).symm
  have hanti : IsAntisymm Product (fun a b : Product => b.price < a.price) :=
    ⟨fun a b h1 h2 => absurd (lt_trans h1 h2) (lt_irrefl _)⟩
  have e1 : performSort "price-high" l =
      l.mergeSort (fun a b => decide (b.price ≤ a.price)) := by
    unfold performSort
    rw [if_neg (by decide), if_pos rfl]
  have e2 : performSort "price-low" l =
      l.mergeSort (fun a b => decide (a.price ≤ b.price)) := by
    unfold performSort
    rw [if_pos rfl]
  rw [e1, e2]
  exact @List.eq_of_perm_of_sorted _ _ hanti _ _ hperm hsD hsArev

/-- C8 (witness): the shipped catalog has pairwise distinct prices and its
descending price sort is the reverse of its ascending price sort. -/
theorem sort_reverse_witness :
    (products.map Product.price).Nodup ∧
    performSort "price-high" products = (performSort "price-low" products).reverse :=
  ⟨by decide, sort_reverse products (by decide)⟩
